import Mathlib

/-!
Verification of the sds-middleware job lifecycle against its source.

Shallow embedding of three components:
- the download-token service (app/core/download_tokens.py, app/worker.py),
- the submission gateway (async/async_api_server.py),
- the retrieval worker (async/worker.py, async/database.py).

Timestamps are modelled as integers (a linear clock); database tables as
lists of records; the effectful handlers as pure functions producing a
trace of effects.
-/

/-- Job status values, from async/database.py JobStatusEnum. -/
inductive JobStatus
  | submitted
  | processing
  | completed
  | failed
  | cancelled
deriving DecidableEq, Repr

/-- Token status values, from app/core/download_tokens.py TokenStatus. -/
inductive TokenStatus
  | active
  | disabled
  | expired
deriving DecidableEq, Repr

/-- Download token record, from app/core/download_tokens.py DownloadToken
(one row of the download_tokens table). -/
structure DownloadToken where
  token_id : Nat
  token : String
  job_id : Nat
  status : TokenStatus
  download_count : Nat
  max_downloads : Nat
  created_time : Int
  expires_at : Int
  last_download_time : Option Int
  last_download_ip : Option String
deriving DecidableEq, Repr

/-- DownloadToken.is_valid, translated clause by clause from
app/core/download_tokens.py lines 56-76: not active, or now at/after
expires_at, or download_count at/above max_downloads, each force False. -/
def DownloadToken.is_valid (t : DownloadToken) (now : Int) : Bool :=
  if t.status ≠ TokenStatus.active then false
  else if now ≥ t.expires_at then false
  else if t.download_count ≥ t.max_downloads then false
  else true

/-- DownloadToken.should_expire from app/core/download_tokens.py lines 78-83. -/
def DownloadToken.should_expire (t : DownloadToken) (now : Int) : Bool :=
  decide (now ≥ t.expires_at) || decide (t.download_count ≥ t.max_downloads)

/-- Fields produced by TokenManager.create_token_data
(app/core/download_tokens.py lines 118-149) before database insertion;
token_id is assigned by the store, so it is absent here. Time is in
seconds, hence hours scale by 3600. The opaque token string (a truncated
hash of random bytes) is passed in as a parameter. -/
structure TokenData where
  token : String
  job_id : Nat
  status : TokenStatus
  download_count : Nat
  max_downloads : Nat
  created_time : Int
  expires_at : Int
deriving DecidableEq, Repr

/-- TokenManager.create_token_data, translated from
app/core/download_tokens.py lines 118-149. -/
def TokenManager.create_token_data (tok : String) (job_id : Nat)
    (max_downloads : Nat) (expiry_hours : Int) (now : Int) : TokenData :=
  { token := tok
    job_id := job_id
    status := TokenStatus.active
    download_count := 0
    max_downloads := max_downloads
    created_time := now
    expires_at := now + expiry_hours * 3600 }

/-- Promote freshly created token data to a full row once the store
assigns token_id (the INSERT of SQL_QUERIES create_token leaves the last
download fields NULL). -/
def TokenData.toRow (d : TokenData) (token_id : Nat) : DownloadToken :=
  { token_id := token_id
    token := d.token
    job_id := d.job_id
    status := d.status
    download_count := d.download_count
    max_downloads := d.max_downloads
    created_time := d.created_time
    expires_at := d.expires_at
    last_download_time := none
    last_download_ip := none }

/-- TokenManager.validate_token_params, translated from
app/core/download_tokens.py lines 151-176: returns validity plus the
diagnostic message chosen by the same cascade of checks. -/
def TokenManager.validate_token_params (t : DownloadToken) (now : Int) :
    Bool × Option String :=
  if ¬ (t.is_valid now = true) then
    if t.status ≠ TokenStatus.active then (false, some "Token is not active")
    else if now ≥ t.expires_at then (false, some "Token has expired (24 hours elapsed)")
    else if t.download_count ≥ t.max_downloads then
      (false, some "Token has reached maximum downloads")
    else (false, some "Token is invalid")
  else (true, none)

/-- Outcome classes of the token endpoints in app/worker.py: 404 when the
token row is absent, 403 when validation fails. -/
inductive TokenError
  | NotFoundE
  | ForbiddenE
deriving DecidableEq, Repr

/-- record_download endpoint, translated from app/worker.py lines 307-384,
acting on the single fetched token row: re-validate (403 Forbidden when
invalid); then apply SQL_QUERIES update_download (increment
download_count, set last_download_time and last_download_ip) and, when
the new count reaches max_downloads, SQL_QUERIES mark_expired in the
same commit. -/
def record_download (t : DownloadToken) (now : Int) (client_ip : String) :
    Except TokenError DownloadToken :=
  if (TokenManager.validate_token_params t now).1 = false then
    Except.error TokenError.ForbiddenE
  else
    let new_count := t.download_count + 1
    let t2 : DownloadToken :=
      { t with download_count := new_count
               last_download_time := some now
               last_download_ip := some client_ip }
    if new_count ≥ t.max_downloads then
      Except.ok { t2 with status := TokenStatus.expired }
    else
      Except.ok t2

/-- The WHERE clause of SQL_QUERIES expire_old_tokens
(app/core/download_tokens.py lines 233-238): active AND
(expires_at < NOW() OR download_count >= max_downloads). -/
def sweepMatches (now : Int) (t : DownloadToken) : Bool :=
  t.status = TokenStatus.active &&
    (decide (t.expires_at < now) || decide (t.download_count ≥ t.max_downloads))

/-- expire_old_tokens endpoint (app/worker.py lines 407-431) executing
SQL_QUERIES expire_old_tokens over the whole table: flip every matching
row to expired, report cursor.rowcount (the number of matched rows). -/
def expire_old_tokens (now : Int) (table : List DownloadToken) :
    List DownloadToken × Nat :=
  (table.map (fun t => if sweepMatches now t then { t with status := TokenStatus.expired } else t),
   (table.filter (sweepMatches now)).length)

/-!
Submission gateway: AsyncSDSFilePullHandler.get in
async/async_api_server.py.
-/

/-- os.path.basename as used on collection paths: the part after the last
slash (scan the characters, restarting at each slash). -/
def basename (p : String) : String :=
  String.mk (p.data.foldl (fun acc c => if c = '/' then [] else acc ++ [c]) [])

/-- One row of the job table as seen by the deduplication query
(async/async_api_server.py line 230): email, collection (a basename),
jobStatus and dateCreated, times in minutes. -/
structure JobRecord where
  email : String
  collection : String
  jobStatus : JobStatus
  dateCreated : Int
deriving DecidableEq, Repr

/-- Maximum of a list of integers, used to model ORDER BY dateCreated
DESC LIMIT 1 (only the dateCreated column is selected). -/
def listMax : List Int → Option Int
  | [] => none
  | x :: xs =>
    match listMax xs with
    | none => some x
    | some m => some (max x m)

/-- Rows matched by the dedup SELECT of async/async_api_server.py line
230: same email, same collection basename, jobStatus not failed. -/
def dedupMatches (email bn : String) (r : JobRecord) : Bool :=
  r.email = email && r.collection = bn && r.jobStatus ≠ JobStatus.failed

/-- dateCreated of the single row returned by the dedup SELECT (the most
recent matching row), none when no row matches. -/
def latestCreated (table : List JobRecord) (email bn : String) : Option Int :=
  listMax ((table.filter (dedupMatches email bn)).map JobRecord.dateCreated)

/-- The duplicate test of async/async_api_server.py lines 237-245: a row
was returned and job_created_datetime minus its dateCreated is below the
minimum job interval (minutes). Negation of validRequest. -/
def isDuplicate (table : List JobRecord) (email bn : String)
    (now interval : Int) : Bool :=
  match latestCreated table email bn with
  | none => false
  | some last => decide (now - last < interval)

/-- Observable actions of the gateway handler, in program order. -/
inductive GatewayEvent
  | publish (sda_path email job_id : String) (persistent : Bool)
  | insertJob (email sourceIP job_id : String) (dateCreated : Int)
      (jobSize : Option Nat) (jobStatus : JobStatus) (collection : String)
      (downloadURL : Option String)
  | respond (msg : String)
deriving DecidableEq, Repr

/-- AsyncSDSFilePullHandler.get, translated from
async/async_api_server.py lines 183-307: deny-list check, dedup check,
then on acceptance basic_publish with delivery_mode 2 (persistent)
followed by the INSERT of the job row with jobSize and downloadURL NULL
and jobStatus submitted. -/
def gatewayGet (black_list : List String) (table : List JobRecord)
    (sda_file_path user_email_addr remote_ip job_id : String)
    (now minimum_job_interval : Int) : List GatewayEvent :=
  if black_list.contains user_email_addr then
    [GatewayEvent.respond "Warning"]
  else if isDuplicate table user_email_addr (basename sda_file_path)
      now minimum_job_interval then
    [GatewayEvent.respond "Invalid Request"]
  else
    [GatewayEvent.publish sda_file_path user_email_addr job_id true,
     GatewayEvent.insertJob user_email_addr remote_ip job_id now none
       JobStatus.submitted (basename sda_file_path) none,
     GatewayEvent.respond "Acknowledgement"]

/-- Index of the first queue-publish event in a gateway trace. -/
def firstPublishIdx (tr : List GatewayEvent) : Option Nat :=
  tr.findIdx? (fun e => match e with | GatewayEvent.publish _ _ _ _ => true | _ => false)

/-- Index of the first job-insert event in a gateway trace. -/
def firstInsertIdx (tr : List GatewayEvent) : Option Nat :=
  tr.findIdx? (fun e => match e with | GatewayEvent.insertJob _ _ _ _ _ _ _ _ => true | _ => false)

/-- The ordering asserted by the spec sentence under test: the job-row
insert happens, and any publish comes only after it. -/
def insertThenPublish (tr : List GatewayEvent) : Bool :=
  match firstInsertIdx tr, firstPublishIdx tr with
  | some i, some j => decide (i < j)
  | _, _ => false

/-!
Retrieval worker: Worker in async/worker.py. The callback handling one
queue message is embedded as a pure function from the outcomes of its
environment interactions (cache lookup, disk scan, external tool run,
mail relay) to the trace of effects it performs, in program order.
-/

/-- Result of Worker.isInCache as observed by the caller: the file is
present and stable (True), absent / vanished / orphaned (False), or the
lookup raised (the file may be removed mid-poll by other processes). -/
inductive CacheOutcome
  | hit
  | miss
  | raised
deriving DecidableEq, Repr

/-- Outcome of running the external retrieval tool under Popen with a
timeout: clean exit 0, a non-zero exit code, or TimeoutExpired. -/
inductive PullOutcome
  | success
  | nonzeroExit
  | timeoutExpired
deriving DecidableEq, Repr

/-- Worker.hasEnoughSpace, translated from async/worker.py lines 252-268:
sum the entry sizes of the staging directory (bytes), divide by 1024^3
(exact rational arithmetic standing in for Python float division) and
compare with the threshold in GB. -/
def hasEnoughSpace (entrySizes : List Nat) (threshold : ℚ) : Bool :=
  let size : Nat := entrySizes.foldl (fun a b => a + b) 0
  let sizeInGB : ℚ := (size : ℚ) / (1024 * 1024 * 1024)
  if sizeInGB ≥ threshold then false else true

/-- Observable actions of the worker callback, in program order. -/
inductive Effect
  | basicReject (requeue : Bool)
  | updateStatus (job_id : String) (st : JobStatus)
  | updateCompleted (job_id : String) (st : JobStatus) (jobSize : Nat)
      (downloadURL : String)
  | sendCancelMail (ok : Bool)
  | sendCompletionMail (ok : Bool)
  | sendErrorMail (ok : Bool)
  | invokeTool
  | killProcess
  | removeLocalFile
  | basicAck
deriving DecidableEq, Repr

/-- Worker.pullSda, translated from async/worker.py lines 82-136: run the
composed command; on TimeoutExpired or non-zero exit code, kill the
process, remove the partially transferred local file, and re-raise (the
Bool records whether the call returned normally). -/
def pullSda (outcome : PullOutcome) : List Effect × Bool :=
  match outcome with
  | PullOutcome.success => ([Effect.invokeTool], true)
  | PullOutcome.nonzeroExit =>
      ([Effect.invokeTool, Effect.killProcess, Effect.removeLocalFile], false)
  | PullOutcome.timeoutExpired =>
      ([Effect.invokeTool, Effect.killProcess, Effect.removeLocalFile], false)

/-- The worker's job-size computation on completion (async/worker.py line
364): byte count shifted right by 20 bits. -/
def jobSizeOf (bytes : Nat) : Nat := bytes >>> 20

/-- Worker.callback, translated from async/worker.py lines 298-403.
Parameters carry the environment outcomes: the cache lookup result (a
raised lookup is caught and leaves cacheHit False), the staging
directory entry sizes and threshold for hasEnoughSpace, the external
tool outcome, and whether each mail send returns normally. The trace
lists effects in program order. On insufficient space and a cache miss:
basic_reject without requeue, status cancelled, cancel mail, return
before the try (so no ack). Otherwise: status processing; pullSda on a
cache miss; on normal completion status completed with jobSize and
downloadURL, then the completion mail, whose failure falls into the
except branch; the except branch sets status failed and attempts the
error mail, swallowing its failure; the finally always attempts
basic_ack. -/
def callback (cacheOutcome : CacheOutcome) (entrySizes : List Nat)
    (threshold : ℚ) (pullOutcome : PullOutcome)
    (completionMailOk errorMailOk cancelMailOk : Bool)
    (job_id : String) (localFileBytes : Nat) (download_link : String) :
    List Effect :=
  let cacheHit : Bool := match cacheOutcome with
    | CacheOutcome.hit => true
    | _ => false
  if !hasEnoughSpace entrySizes threshold && !cacheHit then
    [Effect.basicReject false,
     Effect.updateStatus job_id JobStatus.cancelled,
     Effect.sendCancelMail cancelMailOk]
  else
    let processingTrace := [Effect.updateStatus job_id JobStatus.processing]
    let pullStep : List Effect × Bool :=
      if cacheHit then ([], true) else pullSda pullOutcome
    let failTrace :=
      [Effect.updateStatus job_id JobStatus.failed,
       Effect.sendErrorMail errorMailOk]
    let tryTrace :=
      if pullStep.2 then
        processingTrace ++ pullStep.1 ++
          [Effect.updateCompleted job_id JobStatus.completed
             (jobSizeOf localFileBytes) download_link,
           Effect.sendCompletionMail completionMailOk] ++
          (if completionMailOk then [] else failTrace)
      else
        processingTrace ++ pullStep.1 ++ failTrace
    tryTrace ++ [Effect.basicAck]

/-- The job statuses written to the store by a trace, in order. -/
def statusWrites : List Effect → List JobStatus
  | [] => []
  | Effect.updateStatus _ s :: rest => s :: statusWrites rest
  | Effect.updateCompleted _ s _ _ :: rest => s :: statusWrites rest
  | _ :: rest => statusWrites rest

/-- The transition relation asserted by the spec sentence under test:
submitted to processing or cancelled, processing to completed or failed,
and nothing else. -/
def claimedTransition : JobStatus → JobStatus → Bool
  | JobStatus.submitted, JobStatus.processing => true
  | JobStatus.submitted, JobStatus.cancelled => true
  | JobStatus.processing, JobStatus.completed => true
  | JobStatus.processing, JobStatus.failed => true
  | _, _ => false

/-- The transition relation the worker actually realises: the claimed
one plus completed to failed, which the callback performs when the
completion-notification mail send raises after the completed update. -/
def actualTransition : JobStatus → JobStatus → Bool
  | JobStatus.completed, JobStatus.failed => true
  | a, b => claimedTransition a b

/-- Does the status-write sequence, started from the given state, follow
the transition relation step by step? -/
def chainFrom (step : JobStatus → JobStatus → Bool) (s : JobStatus) :
    List JobStatus → Bool
  | [] => true
  | x :: xs => step s x && chainFrom step x xs

theorem validate_fst (t : DownloadToken) (now : Int) :
    (TokenManager.validate_token_params t now).1 = t.is_valid now := by
  unfold TokenManager.validate_token_params
  split_ifs with h <;> simp_all

theorem is_valid_true_of (t : DownloadToken) (now : Int)
    (h1 : t.status = TokenStatus.active) (h2 : now < t.expires_at)
    (h3 : t.download_count < t.max_downloads) : t.is_valid now = true := by
  unfold DownloadToken.is_valid
  rw [if_neg (by simp [h1]), if_neg (not_le.mpr h2), if_neg (not_le.mpr h3)]

theorem record_download_ok_mid (t : DownloadToken) (now : Int) (ip : String)
    (hv : t.is_valid now = true) (hlt : t.download_count + 1 < t.max_downloads) :
    record_download t now ip = Except.ok
      { t with download_count := t.download_count + 1,
               last_download_time := some now, last_download_ip := some ip } := by
  unfold record_download
  rw [validate_fst, hv, if_neg (by simp), if_neg (by omega)]

theorem record_download_ok_last (t : DownloadToken) (now : Int) (ip : String)
    (hv : t.is_valid now = true) (hge : t.download_count + 1 ≥ t.max_downloads) :
    record_download t now ip = Except.ok
      { t with status := TokenStatus.expired, download_count := t.download_count + 1,
               last_download_time := some now, last_download_ip := some ip } := by
  unfold record_download
  rw [validate_fst, hv, if_neg (by simp), if_pos (by omega)]

theorem record_download_forbidden (t : DownloadToken) (now : Int) (ip : String)
    (hv : t.is_valid now = false) :
    record_download t now ip = Except.error TokenError.ForbiddenE := by
  unfold record_download
  rw [validate_fst, hv, if_pos rfl]

/-- Claim C2: a download token is usable (is_valid) iff its status is
active, the current time is strictly before expires_at, and
download_count is below max_downloads; consequently a freshly created
token (download_count 0) is invalid at or after created_time plus
expiry_hours. -/
theorem token_is_valid_iff (t : DownloadToken) (now : Int) :
    (t.is_valid now = true ↔
      t.status = TokenStatus.active ∧ now < t.expires_at ∧
        t.download_count < t.max_downloads)
    ∧ (∀ (tok : String) (jid tid md : Nat) (eh created now2 : Int),
        now2 ≥ created + eh * 3600 →
        ((TokenManager.create_token_data tok jid md eh created).toRow tid).is_valid now2
          = false) := by
  constructor
  · unfold DownloadToken.is_valid
    split_ifs with hA hT hC <;> simp_all
  · intro tok jid tid md eh created now2 h
    unfold DownloadToken.is_valid TokenManager.create_token_data TokenData.toRow
    simp only []
    rw [if_neg (by simp), if_pos (by simpa using h)]

theorem token_is_valid_iff_witness :
    ((TokenManager.create_token_data "t" 1 3 24 0).toRow 5).is_valid 86400 = false :=
  (token_is_valid_iff ((TokenManager.create_token_data "t" 1 3 24 0).toRow 5) 86400).2
    "t" 1 5 3 24 0 86400 (by decide)

theorem sweepMatches_once (now : Int) (t : DownloadToken) :
    sweepMatches now
      (if sweepMatches now t then { t with status := TokenStatus.expired } else t) = false := by
  cases hM : sweepMatches now t with
  | true => simp [sweepMatches]
  | false => simp [hM]

/-- Claim C9: SweepExpired is idempotent. Running expire_old_tokens
twice in immediate succession (the two runs observing the same clock
reading, no intervening operations) flips zero tokens on the second
run: the reported rowcount of the second run is 0. -/
theorem sweep_idempotent (now : Int) (table : List DownloadToken) :
    (expire_old_tokens now (expire_old_tokens now table).1).2 = 0 := by
  have h : List.filter (sweepMatches now) ((expire_old_tokens now table).1) = [] := by
    rw [List.filter_eq_nil_iff]
    intro a ha
    unfold expire_old_tokens at ha
    simp only [List.mem_map] at ha
    rcases ha with ⟨t, _, rfl⟩
    simp [sweepMatches_once now t]
  unfold expire_old_tokens
  simp [h]
  intro a _
  exact sweepMatches_once now a

/-- Claim C6: for a token with max_downloads 3 used before its time
expiry, exactly 3 record_download calls succeed, each re-validating
first, incrementing download_count and recording last_download_time and
last_download_ip, flipping status to expired when the new count reaches
max_downloads; every later call fails with Forbidden. -/
theorem record_download_exactly_three (t0 : DownloadToken)
    (n1 n2 n3 : Int) (ip1 ip2 ip3 : String)
    (hs : t0.status = TokenStatus.active) (hc : t0.download_count = 0)
    (hm : t0.max_downloads = 3)
    (h1 : n1 < t0.expires_at) (h2 : n2 < t0.expires_at) (h3 : n3 < t0.expires_at) :
    ∃ t1 t2 t3 : DownloadToken,
      record_download t0 n1 ip1 = Except.ok t1 ∧
        t1.download_count = 1 ∧ t1.status = TokenStatus.active ∧
        t1.last_download_time = some n1 ∧ t1.last_download_ip = some ip1 ∧
      record_download t1 n2 ip2 = Except.ok t2 ∧
        t2.download_count = 2 ∧ t2.status = TokenStatus.active ∧
        t2.last_download_time = some n2 ∧ t2.last_download_ip = some ip2 ∧
      record_download t2 n3 ip3 = Except.ok t3 ∧
        t3.download_count = 3 ∧ t3.status = TokenStatus.expired ∧
        t3.last_download_time = some n3 ∧ t3.last_download_ip = some ip3 ∧
      ∀ (n : Int) (ip : String),
        record_download t3 n ip = Except.error TokenError.ForbiddenE := by
  refine ⟨_, _, _,
    record_download_ok_mid t0 n1 ip1 (is_valid_true_of t0 n1 hs h1 (by omega)) (by omega),
    by simp [hc], by simp [hs], by simp, by simp,
    record_download_ok_mid _ n2 ip2 (is_valid_true_of _ n2 (by simp [hs]) (by simpa using h2) (by simp; omega)) (by simp; omega),
    by simp [hc], by simp [hs], by simp, by simp,
    record_download_ok_last _ n3 ip3 (is_valid_true_of _ n3 (by simp [hs]) (by simpa using h3) (by simp; omega)) (by simp; omega),
    by simp [hc], by simp, by simp, by simp,
    ?_⟩
  intro n ip
  exact record_download_forbidden _ n ip (by unfold DownloadToken.is_valid; rw [if_pos (by simp)])

theorem record_download_exactly_three_witness :
    ∃ t1 t2 t3 : DownloadToken,
      record_download ((TokenManager.create_token_data "w" 9 3 24 0).toRow 4) 10 "ip1" = Except.ok t1 ∧
        t1.download_count = 1 ∧ t1.status = TokenStatus.active ∧
        t1.last_download_time = some 10 ∧ t1.last_download_ip = some "ip1" ∧
      record_download t1 20 "ip2" = Except.ok t2 ∧
        t2.download_count = 2 ∧ t2.status = TokenStatus.active ∧
        t2.last_download_time = some 20 ∧ t2.last_download_ip = some "ip2" ∧
      record_download t2 30 "ip3" = Except.ok t3 ∧
        t3.download_count = 3 ∧ t3.status = TokenStatus.expired ∧
        t3.last_download_time = some 30 ∧ t3.last_download_ip = some "ip3" ∧
      ∀ (n : Int) (ip : String),
        record_download t3 n ip = Except.error TokenError.ForbiddenE :=
  record_download_exactly_three ((TokenManager.create_token_data "w" 9 3 24 0).toRow 4)
    10 20 30 "ip1" "ip2" "ip3" (by decide) (by decide) (by decide)
    (by decide) (by decide) (by decide)

/-- Claim C7: a submission is rejected as duplicate iff the most recent
non-failed job row for the same email and collection basename exists and
was created strictly less than the minimum job interval before now; the
decision consults only that single most recent record, and a failed row
never affects it (prepending a failed job leaves the decision
unchanged). -/
theorem dedup_most_recent_nonfailed :
    (∀ (table : List JobRecord) (email bn : String) (now itv : Int),
      isDuplicate table email bn now itv = true ↔
        ∃ m, latestCreated table email bn = some m ∧ now - m < itv)
    ∧ (∀ (r : JobRecord) (table : List JobRecord) (email bn : String) (now itv : Int),
        r.jobStatus = JobStatus.failed →
        isDuplicate (r :: table) email bn now itv = isDuplicate table email bn now itv) := by
  constructor
  · intro table email bn now itv
    unfold isDuplicate
    cases h : latestCreated table email bn with
    | none => simp
    | some m => simp [h]
  · intro r table email bn now itv hr
    unfold isDuplicate latestCreated
    have : dedupMatches email bn r = false := by simp [dedupMatches, hr]
    simp [List.filter_cons, this]

theorem dedup_most_recent_nonfailed_witness :
    isDuplicate [{ email := "u@x.com", collection := "f.zip",
                   jobStatus := JobStatus.failed, dateCreated := 100 }]
        "u@x.com" "f.zip" 101 360
      = isDuplicate [] "u@x.com" "f.zip" 101 360 :=
  dedup_most_recent_nonfailed.2
    { email := "u@x.com", collection := "f.zip",
      jobStatus := JobStatus.failed, dateCreated := 100 }
    [] "u@x.com" "f.zip" 101 360 rfl

/-- Claim C1 counterexample: a concrete accepted submission (empty deny
list, empty job table) produces the trace publish-then-insert, so the
claimed order — job-row insert strictly before the queue publish — is
false on the code: insertThenPublish of the trace is false. -/
theorem gateway_publishes_before_insert_cex :
    gatewayGet [] [] "dir/f.zip" "u@x.com" "1.2.3.4" "jid-1" 0 360 =
      [GatewayEvent.publish "dir/f.zip" "u@x.com" "jid-1" true,
       GatewayEvent.insertJob "u@x.com" "1.2.3.4" "jid-1" 0 none
         JobStatus.submitted "f.zip" none,
       GatewayEvent.respond "Acknowledgement"]
    ∧ insertThenPublish
        (gatewayGet [] [] "dir/f.zip" "u@x.com" "1.2.3.4" "jid-1" 0 360) = false := by
  decide

/-- Claim C1 (amended): for every accepted submission (requester not
deny-listed, no dedup conflict), the gateway first publishes
the message to the durable queue as a persistent message and only after
that inserts the Job row with status submitted, job_size null and
download_url null. -/
theorem gateway_accept_trace (black_list : List String) (table : List JobRecord)
    (sda email ip jid : String) (now itv : Int)
    (hbl : black_list.contains email = false)
    (hdup : isDuplicate table email (basename sda) now itv = false) :
    gatewayGet black_list table sda email ip jid now itv =
      [GatewayEvent.publish sda email jid true,
       GatewayEvent.insertJob email ip jid now none JobStatus.submitted
         (basename sda) none,
       GatewayEvent.respond "Acknowledgement"] := by
  unfold gatewayGet
  rw [if_neg (by rw [hbl]; simp), if_neg (by rw [hdup]; simp)]

theorem gateway_accept_trace_witness :
    gatewayGet [] [] "dir/g.zip" "v@x.com" "5.6.7.8" "jid-2" 0 360 =
      [GatewayEvent.publish "dir/g.zip" "v@x.com" "jid-2" true,
       GatewayEvent.insertJob "v@x.com" "5.6.7.8" "jid-2" 0 none
         JobStatus.submitted "g.zip" none,
       GatewayEvent.respond "Acknowledgement"] :=
  gateway_accept_trace [] [] "dir/g.zip" "v@x.com" "5.6.7.8" "jid-2" 0 360
    (by decide) (by decide)

/-- Claim C5: hasEnoughSpace is false exactly when the staging
directory total size in GB meets or exceeds the threshold; in that case
a cache-miss message is rejected without requeue, the job is marked
cancelled with a cancellation notice, and the retrieval tool is never
invoked; on a cache hit the disk-usage check never rejects or cancels
the job. -/
theorem admission_control_reject (co : CacheOutcome) (sizes : List Nat) (th : ℚ)
    (po : PullOutcome) (cok eok canok : Bool) (jid : String) (b : Nat) (url : String) :
    (hasEnoughSpace sizes th = false ↔
      ((sizes.foldl (fun a c => a + c) 0 : Nat) : ℚ) / (1024 * 1024 * 1024) ≥ th)
    ∧ (hasEnoughSpace sizes th = false → co ≠ CacheOutcome.hit →
        callback co sizes th po cok eok canok jid b url =
          [Effect.basicReject false, Effect.updateStatus jid JobStatus.cancelled,
           Effect.sendCancelMail canok]
        ∧ Effect.invokeTool ∉ callback co sizes th po cok eok canok jid b url)
    ∧ (co = CacheOutcome.hit →
        Effect.basicReject false ∉ callback co sizes th po cok eok canok jid b url ∧
        Effect.updateStatus jid JobStatus.cancelled ∉
          callback co sizes th po cok eok canok jid b url) := by
  refine ⟨?_, ?_, ?_⟩
  · unfold hasEnoughSpace
    dsimp only
    split_ifs with h <;> simp [h]
  · intro hsp hne
    cases co with
    | hit => exact absurd rfl hne
    | miss => constructor <;> simp [callback, hsp]
    | raised => constructor <;> simp [callback, hsp]
  · intro hco
    subst hco
    cases hsp : hasEnoughSpace sizes th <;> cases cok <;>
      simp [callback, hsp]

theorem admission_control_reject_witness :
    callback CacheOutcome.miss [] 0 PullOutcome.success true true true "jw5" 5 "uw5" =
      [Effect.basicReject false, Effect.updateStatus "jw5" JobStatus.cancelled,
       Effect.sendCancelMail true] :=
  ((admission_control_reject CacheOutcome.miss [] 0 PullOutcome.success true true true
      "jw5" 5 "uw5").2.1 (by simp [hasEnoughSpace]) (by decide)).1

/-- Claim C8: when the retrieval tool exits non-zero or times out,
pullSda kills the process and removes the partial local file and
reports failure, and the callback marks the job failed and still
positively acknowledges the queue message. -/
theorem pull_failure_cleanup_and_ack (co : CacheOutcome) (sizes : List Nat) (th : ℚ)
    (po : PullOutcome) (cok eok canok : Bool) (jid : String) (b : Nat) (url : String)
    (hco : co ≠ CacheOutcome.hit) (hpo : po ≠ PullOutcome.success)
    (hsp : hasEnoughSpace sizes th = true) :
    (pullSda po).2 = false ∧
    Effect.killProcess ∈ (pullSda po).1 ∧
    Effect.removeLocalFile ∈ (pullSda po).1 ∧
    callback co sizes th po cok eok canok jid b url =
      [Effect.updateStatus jid JobStatus.processing, Effect.invokeTool,
       Effect.killProcess, Effect.removeLocalFile,
       Effect.updateStatus jid JobStatus.failed, Effect.sendErrorMail eok,
       Effect.basicAck] := by
  cases co with
  | hit => exact absurd rfl hco
  | miss =>
    cases po with
    | success => exact absurd rfl hpo
    | nonzeroExit => refine ⟨rfl, by simp [pullSda], by simp [pullSda], by simp [callback, pullSda, hsp]⟩
    | timeoutExpired => refine ⟨rfl, by simp [pullSda], by simp [pullSda], by simp [callback, pullSda, hsp]⟩
  | raised =>
    cases po with
    | success => exact absurd rfl hpo
    | nonzeroExit => refine ⟨rfl, by simp [pullSda], by simp [pullSda], by simp [callback, pullSda, hsp]⟩
    | timeoutExpired => refine ⟨rfl, by simp [pullSda], by simp [pullSda], by simp [callback, pullSda, hsp]⟩

theorem pull_failure_cleanup_and_ack_witness :
    callback CacheOutcome.miss [] 1 PullOutcome.timeoutExpired true true true "jw8" 5 "uw8" =
      [Effect.updateStatus "jw8" JobStatus.processing, Effect.invokeTool,
       Effect.killProcess, Effect.removeLocalFile,
       Effect.updateStatus "jw8" JobStatus.failed, Effect.sendErrorMail true,
       Effect.basicAck] :=
  (pull_failure_cleanup_and_ack CacheOutcome.miss [] 1 PullOutcome.timeoutExpired
      true true true "jw8" 5 "uw8" (by decide) (by decide) (by simp [hasEnoughSpace])).2.2.2

/-- Claim C3 counterexample: two identical successful runs differing
only in whether the completion-notification mail send raises produce
different stored-status sequences — the failing send adds a failed
write after the completed write — so an email failure does change the
stored job status. -/
theorem completion_mail_failure_flips_status :
    statusWrites (callback CacheOutcome.hit [] 1 PullOutcome.success false true true "j1" 0 "u")
      = [JobStatus.processing, JobStatus.completed, JobStatus.failed]
    ∧ statusWrites (callback CacheOutcome.hit [] 1 PullOutcome.success true true true "j1" 0 "u")
      = [JobStatus.processing, JobStatus.completed]
    ∧ statusWrites (callback CacheOutcome.hit [] 1 PullOutcome.success false true true "j1" 0 "u")
      ≠ statusWrites (callback CacheOutcome.hit [] 1 PullOutcome.success true true true "j1" 0 "u") := by
  refine ⟨?_, ?_, ?_⟩ <;> simp [callback, hasEnoughSpace, statusWrites]

/-- Claim C3 (amended): a failure of the failure-notification email is
discarded: it never changes the stored statuses and never affects
acknowledgment (the trace is unchanged up to the recorded mail
outcome); a failure of the completion-notification email re-marks the
job failed, but any run that recorded completion still acknowledges the
queue message. -/
theorem mail_failure_never_blocks_ack (co : CacheOutcome) (sizes : List Nat) (th : ℚ)
    (po : PullOutcome) (cok eok canok : Bool) (jid : String) (b : Nat) (url : String) :
    statusWrites (callback co sizes th po cok eok canok jid b url) =
      statusWrites (callback co sizes th po cok true canok jid b url)
    ∧ ((Effect.basicAck ∈ callback co sizes th po cok eok canok jid b url) ↔
        (Effect.basicAck ∈ callback co sizes th po cok true canok jid b url))
    ∧ (Effect.updateCompleted jid JobStatus.completed (jobSizeOf b) url ∈
          callback co sizes th po cok eok canok jid b url →
        Effect.basicAck ∈ callback co sizes th po cok eok canok jid b url) := by
  cases hsp : hasEnoughSpace sizes th <;> cases co <;> cases po <;> cases cok <;>
    simp [callback, pullSda, statusWrites, hsp]

theorem mail_failure_never_blocks_ack_witness :
    Effect.basicAck ∈ callback CacheOutcome.hit [] 1 PullOutcome.success false false true "jw3" 0 "uw3" :=
  (mail_failure_never_blocks_ack CacheOutcome.hit [] 1 PullOutcome.success false false true
      "jw3" 0 "uw3").2.2 (by simp [callback, hasEnoughSpace])

/-- Claim C4 counterexample: a concrete worker run (cache hit, enough
space, completion mail send fails) writes the status sequence
processing, completed, failed — its transitions leave a terminal state
(completed to failed), violating the claimed transition relation. -/
theorem status_write_violates_claimed_chain :
    chainFrom claimedTransition JobStatus.submitted
      (statusWrites (callback CacheOutcome.hit [] 1 PullOutcome.success false true true "j2" 0 "u")) = false
    ∧ statusWrites (callback CacheOutcome.hit [] 1 PullOutcome.success false true true "j2" 0 "u")
      = [JobStatus.processing, JobStatus.completed, JobStatus.failed] := by
  constructor <;>
    simp [callback, hasEnoughSpace, statusWrites, chainFrom, claimedTransition]

/-- Claim C4 (amended): every status-write sequence of the worker
callback follows submitted to processing or cancelled, processing to
completed or failed, plus completed to failed; no job returns to
submitted; and any deviation from the claimed relation (without
completed to failed) happens only when the completion mail send
fails. -/
theorem callback_status_chain (co : CacheOutcome) (sizes : List Nat) (th : ℚ)
    (po : PullOutcome) (cok eok canok : Bool) (jid : String) (b : Nat) (url : String) :
    chainFrom actualTransition JobStatus.submitted
      (statusWrites (callback co sizes th po cok eok canok jid b url)) = true
    ∧ JobStatus.submitted ∉ statusWrites (callback co sizes th po cok eok canok jid b url)
    ∧ (chainFrom claimedTransition JobStatus.submitted
        (statusWrites (callback co sizes th po cok eok canok jid b url)) = false →
       cok = false) := by
  cases hsp : hasEnoughSpace sizes th <;> cases co <;> cases po <;> cases cok <;>
    simp [callback, pullSda, statusWrites, hsp, chainFrom, actualTransition, claimedTransition]

theorem callback_status_chain_witness :
    JobStatus.submitted ∉ statusWrites
      (callback CacheOutcome.hit [] 1 PullOutcome.success false true true "jw4" 0 "uw4")
    ∧ (false : Bool) = false :=
  ⟨(callback_status_chain CacheOutcome.hit [] 1 PullOutcome.success false true true
      "jw4" 0 "uw4").2.1,
   (callback_status_chain CacheOutcome.hit [] 1 PullOutcome.success false true true
      "jw4" 0 "uw4").2.2
     (by simp [callback, hasEnoughSpace, statusWrites, chainFrom, claimedTransition])⟩

/-- Claim C10: for a staged file strictly smaller than 2 to the 20
bytes, the job size recorded on any completed row is 0, because the
size is the byte count shifted right by 20 bits; a successful run does
record such a completed row with size 0. -/
theorem small_completed_job_size_zero (b : Nat) (hb : b < 2 ^ 20) :
    jobSizeOf b = 0
    ∧ (∀ (co : CacheOutcome) (sizes : List Nat) (th : ℚ) (po : PullOutcome)
        (cok eok canok : Bool) (jid url : String) (sz : Nat),
        Effect.updateCompleted jid JobStatus.completed sz url ∈
          callback co sizes th po cok eok canok jid b url → sz = 0)
    ∧ (∀ (sizes : List Nat) (th : ℚ) (cok eok canok : Bool) (jid url : String),
        hasEnoughSpace sizes th = true →
        Effect.updateCompleted jid JobStatus.completed 0 url ∈
          callback CacheOutcome.miss sizes th PullOutcome.success cok eok canok jid b url) := by
  have h0 : jobSizeOf b = 0 := by
    unfold jobSizeOf
    rw [Nat.shiftRight_eq_div_pow]
    exact Nat.div_eq_of_lt hb
  refine ⟨h0, ?_, ?_⟩
  · intro co sizes th po cok eok canok jid url sz hmem
    cases hsp : hasEnoughSpace sizes th <;> cases co <;> cases po <;> cases cok <;>
      simp [callback, pullSda, hsp, h0] at hmem <;> omega
  · intro sizes th cok eok canok jid url hsp
    simp [callback, pullSda, hsp, h0]

theorem small_completed_job_size_zero_witness :
    jobSizeOf 500000 = 0
    ∧ Effect.updateCompleted "jw10" JobStatus.completed 0 "uw10" ∈
        callback CacheOutcome.miss [] 1 PullOutcome.success true true true "jw10" 500000 "uw10" :=
  ⟨(small_completed_job_size_zero 500000 (by decide)).1,
   (small_completed_job_size_zero 500000 (by decide)).2.2 [] 1 true true true "jw10" "uw10"
     (by simp [hasEnoughSpace])⟩
